import Mathlib

/-!
Verification of the VectorModel_2 action-dispatch and background-job layers.

The Python sources embedded here are:
  * `src/actions.py` — general actions (`test`, `get_version`, `ping`);
  * `src/vm_models/controller.py` — the model controller with its
    `_check_input_parameters` / `_transform_model_parameters_for_fitting` /
    `execute_in_background` decorator stack and the operations
    `fit`, `predict`, `initialize`, `drop`, `get_info`, `drop_fitting`;
  * `src/vm_background_jobs/actions.py` — the job query/delete façade.

External collaborators that the controller imports (model classes, fitting
filters, `vm_versions.get_version`, `general.test` / `general.ping`) are
abstracted as function parameters, so every theorem quantifies over them.
The background-job core (`vm_background_jobs.decorators.execute_in_background`
and the job controller/registry) is not part of the given sources; those
definitions are modelled from the specification and are marked as such in
their doc comments.
-/

namespace VMSpec

/-- Embedded Python value: the subset of Python data reachable through the
request-parameter dictionaries handled by the controller. -/
inductive Value where
  | vNone
  | vBool (b : Bool)
  | vInt (n : Int)
  | vStr (s : String)
  | vList (xs : List Value)
  | vDict (entries : List (String × Value))

/-- Python truthiness (`bool(v)`): `None`, `False`, `0`, `""` and empty
containers are falsy, everything else is truthy. -/
def Value.truthy : Value → Bool
  | .vNone => false
  | .vBool b => b
  | .vInt n => n != 0
  | .vStr s => !s.isEmpty
  | .vList xs => !xs.isEmpty
  | .vDict xs => !xs.isEmpty

/-- A Python `dict[str, Any]` as an insertion-ordered association list. -/
abbrev Dict := List (String × Value)

/-- `d[k]` lookup returning `none` when the key is absent (`KeyError` site). -/
def pyGet? : Dict → String → Option Value
  | [], _ => none
  | (k, v) :: rest, key => if k = key then some v else pyGet? rest key

/-- Python `d.get(k)`: the value, or `None` when the key is absent. -/
def pyGet (d : Dict) (key : String) : Value :=
  (pyGet? d key).getD .vNone

/-- Python `k in d`. -/
def pyContains : Dict → String → Bool
  | [], _ => false
  | (k, _) :: rest, key => k = key || pyContains rest key

/-- Python `d[k] = v`: update in place when the key exists (keeping its
insertion position), append at the end otherwise. -/
def pySet : Dict → String → Value → Dict
  | [], key, v => [(key, v)]
  | (k, v') :: rest, key, v =>
      if k = key then (key, v) :: rest else (k, v') :: pySet rest key v

/-- The exceptions raised by the embedded code: the two application
exceptions from `vm_logging.exceptions`, plus Python runtime errors that the
source would hit on ill-shaped input. -/
inductive Exc where
  | parameterNotFound (msg : String)
  | modelException (msg : String)
  | keyError (key : String)
  | typeError

/-- An abstract model object: the controller only calls these methods on the
object returned by `get_model_class()(id)`, so the object is represented by
its method table. The `init_op` field embeds the model method named
`initialize` in the source. -/
structure Model where
  fit : Value → Except Exc Value
  predict : Value → Except Exc Value
  init_op : Value → Except Exc Value
  drop : Unit → Except Exc Value
  get_info : Unit → Except Exc Value
  drop_fitting : Unit → Except Exc Value

/-- `_get_model` from `vm_models/controller.py`: raises `ModelException` when
the model parameters lack a truthy `id`, otherwise builds the model object.
`mk` abstracts the external `get_model_class()` constructor. -/
def _get_model (mk : Value → Model) (input_model : Dict) : Except Exc Model :=
  if (pyGet input_model "id").truthy then .ok (mk (pyGet input_model "id"))
  else .error (.modelException "Parameter \"id\" is not found in model parameters")

/-- The `_check_input_parameters` decorator: raises
`ParameterNotFoundException` when `parameters.get('model')` is falsy,
otherwise calls the wrapped function. -/
def _check_input_parameters (f : Dict → Except Exc Value) (parameters : Dict) :
    Except Exc Value :=
  if (pyGet parameters "model").truthy then f parameters
  else .error (.parameterNotFound "Parameter \"model\" is not found in request parameters")

/-- The parameter rewrite performed by the
`_transform_model_parameters_for_fitting` decorator before it calls the
wrapped function: requires `fitting_parameters` in the model entry, replaces
a present `filter` by the external filter object's value (abstracted as
`filterT`), and copies a present top-level `job_id` into the fitting
parameters. Non-dict shapes that would crash Python surface as errors. -/
def transform_parameters (filterT : Value → Value) (parameters : Dict) :
    Except Exc Dict :=
  match pyGet? parameters "model" with
  | none => .error (.keyError "model")
  | some (.vDict model) =>
      if pyContains model "fitting_parameters" then
        match pyGet? model "fitting_parameters" with
        | some (.vDict fp) =>
            let fp1 := if pyContains fp "filter"
              then pySet fp "filter" (filterT (pyGet fp "filter")) else fp
            let fp2 := if pyContains parameters "job_id"
              then pySet fp1 "job_id" (pyGet parameters "job_id") else fp1
            .ok (pySet parameters "model"
              (.vDict (pySet model "fitting_parameters" (.vDict fp2))))
        | _ => .error .typeError
      else .error (.parameterNotFound "Parameter \"fitting_parameters\" not found in model parameters")
  | some _ => .error .typeError

/-- The body of `fit` (the innermost function under the decorator stack):
resolves the model, re-checks `fitting_parameters`, and calls `model.fit`. -/
def fit_body (mk : Value → Model) (parameters : Dict) : Except Exc Value :=
  match pyGet? parameters "model" with
  | none => .error (.keyError "model")
  | some (.vDict m) =>
      (_get_model mk m).bind fun model =>
        if pyContains m "fitting_parameters" then
          model.fit (pyGet m "fitting_parameters")
        else .error (.modelException "Can not find fitting parameters in model parameters")
  | some _ => .error .typeError

/-- `predict` from `vm_models/controller.py`: `_check_input_parameters`
around a body that requires `inputs`, resolves the model, and calls
`model.predict`. -/
def predict (mk : Value → Model) : Dict → Except Exc Value :=
  _check_input_parameters fun parameters =>
    if pyContains parameters "inputs" then
      match pyGet? parameters "model" with
      | some (.vDict m) =>
          (_get_model mk m).bind fun model => model.predict (pyGet parameters "inputs")
      | _ => .error .typeError
    else .error (.parameterNotFound "Parameter \"inputs\" is not in request parameters")

/-- The operation named `initialize` in `vm_models/controller.py`:
`_check_input_parameters` around a body that re-checks `model`, requires a
truthy `db`, resolves the model, and calls the model method named
`initialize` (field `init_op`). -/
def initialize_op (mk : Value → Model) : Dict → Except Exc Value :=
  _check_input_parameters fun parameters =>
    if (pyGet parameters "model").truthy then
      if (pyGet parameters "db").truthy then
        match pyGet? parameters "model" with
        | some (.vDict m) =>
            (_get_model mk m).bind fun model => model.init_op (pyGet parameters "model")
        | _ => .error .typeError
      else .error (.parameterNotFound "Parameter \"db\" is not found in request parameters")
    else .error (.parameterNotFound "Parameter \"model\" is not found in request parameters")

/-- `drop` from `vm_models/controller.py`: `_check_input_parameters` around a
body that re-checks `model`, requires a truthy `db`, resolves the model, and
calls `model.drop`. -/
def drop (mk : Value → Model) : Dict → Except Exc Value :=
  _check_input_parameters fun parameters =>
    if (pyGet parameters "model").truthy then
      if (pyGet parameters "db").truthy then
        match pyGet? parameters "model" with
        | some (.vDict m) =>
            (_get_model mk m).bind fun model => model.drop ()
        | _ => .error .typeError
      else .error (.parameterNotFound "Parameter \"db\" is not found in request parameters")
    else .error (.parameterNotFound "Parameter \"model\" is not found in request parameters")

/-- `get_info` from `vm_models/controller.py`: `_check_input_parameters`
around a body that resolves the model and calls `model.get_info`. -/
def get_info (mk : Value → Model) : Dict → Except Exc Value :=
  _check_input_parameters fun parameters =>
    match pyGet? parameters "model" with
    | some (.vDict m) =>
        (_get_model mk m).bind fun model => model.get_info ()
    | _ => .error .typeError

/-- `drop_fitting` from `vm_models/controller.py`: no decorator; resolves
the model directly from `parameters['model']` and calls
`model.drop_fitting`. -/
def drop_fitting (mk : Value → Model) (parameters : Dict) : Except Exc Value :=
  match pyGet? parameters "model" with
  | none => .error (.keyError "model")
  | some (.vDict m) =>
      (_get_model mk m).bind fun model => model.drop_fitting ()
  | some _ => .error .typeError

/-! ### Background-job subsystem (modelled from the spec)

`vm_background_jobs.decorators.execute_in_background` and the job
controller/registry behind `vm_background_jobs/actions.py` are not among the
given source files; the definitions below are modelled from the
specification's Job Record / Job Registry / Job Launcher / Execution Wrapper
contracts. -/

/-- Job lifecycle states from the spec's data model. -/
inductive JobStatus where
  | pending
  | running
  | completed
  | failed
deriving DecidableEq

/-- Modelled from the spec: a Job Record — identity, lifecycle state, timing,
worker identifier, failure description, and an opaque reference to the launch
parameters. -/
structure JobRecord where
  id : Nat
  status : JobStatus
  start_date : Option Nat
  end_date : Option Nat
  worker_id : Option Nat
  error_info : Option String
  payload_reference : Dict

/-- Modelled from the spec: the Job Registry — the durable store of Job
Records, with the id-generation counter it guards (the spec allows a
monotonic counter guarded by the registry as the generation scheme). -/
structure JobRegistry where
  records : List JobRecord
  nextId : Nat

/-- Well-formedness of a registry: every stored id is below the counter, and
no two records share an id. -/
def regWF (reg : JobRegistry) : Prop :=
  (∀ r ∈ reg.records, r.id < reg.nextId) ∧ (reg.records.map JobRecord.id).Nodup

/-- The human-readable description recorded for a failure. -/
def exc_message : Exc → String
  | .parameterNotFound msg => msg
  | .modelException msg => msg
  | .keyError key => key
  | .typeError => "TypeError"

/-- Modelled from the spec: the synchronous part of `Job Launcher.launch` —
generate a fresh unique id from the guarded counter, insert a Job Record with
status `pending`, and return the id immediately. -/
def job_launch (parameters : Dict) (reg : JobRegistry) : Nat × JobRegistry :=
  (reg.nextId,
   { records := reg.records ++
       [{ id := reg.nextId, status := .pending, start_date := none,
          end_date := none, worker_id := none, error_info := none,
          payload_reference := parameters }],
     nextId := reg.nextId + 1 })

/-- Modelled from the spec: the terminal update a worker applies to its Job
Record — `completed` on normal return, `failed` with `error_info` on a raised
failure, with start/end timestamps and the worker identifier. -/
def finish_record (outcome : Except Exc Value) (wid t0 t1 : Nat) (r : JobRecord) :
    JobRecord :=
  match outcome with
  | .ok _ =>
      { r with status := .completed, start_date := some t0, end_date := some t1,
               worker_id := some wid }
  | .error e =>
      { r with status := .failed, start_date := some t0, end_date := some t1,
               worker_id := some wid, error_info := some (exc_message e) }

/-- Modelled from the spec: the worker's whole run for job `jid` — set the
record running with its timestamps and worker id, invoke the wrapped callable,
and record the terminal state; the callable's outcome is never returned to
any caller, only written into the registry. -/
def worker_run (handler : Dict → Except Exc Value) (parameters : Dict)
    (jid wid t0 t1 : Nat) (reg : JobRegistry) : JobRegistry :=
  { reg with records := reg.records.map fun r =>
      if r.id = jid then finish_record (handler parameters) wid t0 t1 r else r }

/-- Modelled from the spec: a background launch followed by its worker's
complete run; the first component is the only thing the launching caller ever
receives (the job id, returned before the worker finishes). -/
def background_run (handler : Dict → Except Exc Value) (parameters : Dict)
    (wid t0 t1 : Nat) (reg : JobRegistry) : Nat × JobRegistry :=
  let p := job_launch parameters reg
  (p.1, worker_run handler parameters p.1 wid t0 t1 p.2)

/-- Modelled from the spec: the `execute_in_background` execution wrapper —
when the background-execution indicator (modelled as the key
`background_job`) is absent the handler runs synchronously and its result is
passed through with the registry untouched; when it is present the wrapper
launches the handler and immediately returns the new job identifier. -/
def execute_in_background (handler : Dict → Except Exc Value) (parameters : Dict)
    (reg : JobRegistry) : Except Exc Value × JobRegistry :=
  if pyContains parameters "background_job" then
    let p := job_launch parameters reg
    (.ok (.vInt p.1), p.2)
  else (handler parameters, reg)

/-- `fit` from `vm_models/controller.py`: the decorator stack
`_check_input_parameters` ∘ `_transform_model_parameters_for_fitting` ∘
`execute_in_background` applied to `fit_body`, with the job registry passed
explicitly in place of the ambient job store. -/
def fit (filterT : Value → Value) (mk : Value → Model) (parameters : Dict)
    (reg : JobRegistry) : Except Exc Value × JobRegistry :=
  if (pyGet parameters "model").truthy then
    match transform_parameters filterT parameters with
    | .ok transformed => execute_in_background (fit_body mk) transformed reg
    | .error e => (.error e, reg)
  else
    (.error (.parameterNotFound "Parameter \"model\" is not found in request parameters"), reg)

/-- Modelled from the spec: `Job Registry.delete` — removes the record,
`NotFoundError` when the id is absent. -/
def registry_delete (reg : JobRegistry) (jid : Nat) : Except String JobRegistry :=
  if reg.records.any (fun r => r.id = jid) then
    .ok { reg with records := reg.records.filter (fun r => r.id ≠ jid) }
  else .error "NotFoundError"

/-- The outcome a façade caller receives: a confirmation, or a reported
(non-fatal) error. -/
inductive CallOutcome where
  | ok (msg : String)
  | reported (err : String)

/-- Modelled from the spec: the job controller's `delete_background_job` —
delegates to `Job Registry.delete` and surfaces `NotFoundError` as a reported
(not fatal) error to the caller. -/
def delete_background_job (reg : JobRegistry) (jid : Nat) : CallOutcome × JobRegistry :=
  match registry_delete reg jid with
  | .ok reg1 => (.ok "background job deleted", reg1)
  | .error e => (.reported e, reg)

/-- Modelled from the spec: the operations that touch the registry. The spec
serialises all registry mutations (the counter is guarded by the registry and
updates to a record are linearizable), so any concurrent execution is
observationally equal to some sequence of these atomic operations. -/
inductive JobOp where
  | launchOp (parameters : Dict)
  | finishOp (jid : Nat) (outcome : Except Exc Value) (wid t0 t1 : Nat)
  | deleteOp (jid : Nat)

/-- Modelled from the spec: apply one registry operation. A delete of an
absent id reports an error to its caller and leaves the registry as is, which
is how `registry_delete` behaves on its error path. -/
def apply_op (reg : JobRegistry) : JobOp → JobRegistry
  | .launchOp parameters => (job_launch parameters reg).2
  | .finishOp jid outcome wid t0 t1 =>
      worker_run (fun _ => outcome) [] jid wid t0 t1 reg
  | .deleteOp jid =>
      match registry_delete reg jid with
      | .ok reg1 => reg1
      | .error _ => reg

/-- Run a sequence of registry operations, collecting the job id allocated by
each launch in order. -/
def run_ops : List JobOp → JobRegistry → JobRegistry × List Nat
  | [], reg => (reg, [])
  | .launchOp parameters :: rest, reg =>
      let step := job_launch parameters reg
      let tail := run_ops rest step.2
      (tail.1, step.1 :: tail.2)
  | op :: rest, reg => run_ops rest (apply_op reg op)

/-! ### Action façades -/

/-- Lookup of an action handler in an actions dict. -/
def lookup_action {α : Type} : List (String × α) → String → Option α
  | [], _ => none
  | (k, v) :: rest, name => if k = name then some v else lookup_action rest name

/-- `get_actions` from `vm_background_jobs/actions.py`: registers
`_get_jobs_info` (delegating to the job controller's `get_jobs_info`) under
`jobs_get_info` and `_delete_background_job` (delegating to the job
controller's `delete_background_job`) under `jobs_delete`; the two controller
functions are abstracted as parameters. -/
def jobs_get_actions {α : Type} (get_jobs_info del_job : Dict → α) :
    List (String × (Dict → α)) :=
  [("jobs_get_info", fun parameters => get_jobs_info parameters),
   ("jobs_delete", fun parameters => del_job parameters)]

/-- `_get_version` from `src/actions.py`: ignores the request parameters and
returns the external `get_version()`. -/
def _get_version (get_version : Unit → String) (_parameters : Dict) : Value :=
  .vStr (get_version ())

/-- `_test` from `src/actions.py`: delegates to the external `general.test`. -/
def _test (test_fn : Dict → Value) (parameters : Dict) : Value :=
  test_fn parameters

/-- `_ping` from `src/actions.py`: delegates to the external `general.ping`. -/
def _ping (ping_fn : Dict → Value) (parameters : Dict) : Value :=
  ping_fn parameters

/-- `get_actions` from `src/actions.py`: the general actions dict. -/
def general_get_actions (test_fn ping_fn : Dict → Value)
    (get_version : Unit → String) : List (String × (Dict → Value)) :=
  [("test", _test test_fn),
   ("get_version", _get_version get_version),
   ("ping", _ping ping_fn)]

/-- The value at `parameters['model']['fitting_parameters']['job_id']`, when
that path exists through dicts: what the handler reads to correlate its work
with its Job Record. -/
def nested_job_id (p : Dict) : Option Value :=
  match pyGet? p "model" with
  | some (.vDict m) =>
      match pyGet? m "fitting_parameters" with
      | some (.vDict fp) => pyGet? fp "job_id"
      | _ => none
  | _ => none

/-- A concrete model object whose methods all succeed, used to instantiate
the abstract constructor in witness statements. -/
def trivial_model : Model :=
  { fit := fun _ => .ok .vNone
    predict := fun _ => .ok .vNone
    init_op := fun _ => .ok .vNone
    drop := fun _ => .ok .vNone
    get_info := fun _ => .ok .vNone
    drop_fitting := fun _ => .ok .vNone }

/-! ### Dictionary lemmas -/

theorem pyGet?_pySet_self (d : Dict) (k : String) (v : Value) :
    pyGet? (pySet d k v) k = some v := by
  induction d with
  | nil => simp [pySet, pyGet?]
  | cons hd tl ih =>
      obtain ⟨k1, v1⟩ := hd
      by_cases h : k1 = k
      · simp [pySet, pyGet?, h]
      · simp [pySet, pyGet?, h, ih]

theorem pyGet?_pySet_ne (d : Dict) (k k1 : String) (v : Value) (h : k ≠ k1) :
    pyGet? (pySet d k v) k1 = pyGet? d k1 := by
  induction d with
  | nil => simp [pySet, pyGet?, h]
  | cons hd tl ih =>
      obtain ⟨k2, v2⟩ := hd
      by_cases h2 : k2 = k
      · subst h2
        simp [pySet, pyGet?, h]
      · simp [pySet, pyGet?, h2, ih]

theorem pyContains_pySet_ne (d : Dict) (k k1 : String) (v : Value) (h : k ≠ k1) :
    pyContains (pySet d k v) k1 = pyContains d k1 := by
  induction d with
  | nil => simp [pySet, pyContains, h]
  | cons hd tl ih =>
      obtain ⟨k2, v2⟩ := hd
      by_cases h2 : k2 = k
      · subst h2
        simp [pySet, pyContains, h]
      · simp [pySet, pyContains, h2, ih]

theorem pyContains_of_pyGet? (d : Dict) (k : String) (v : Value)
    (h : pyGet? d k = some v) : pyContains d k = true := by
  induction d with
  | nil => simp [pyGet?] at h
  | cons hd tl ih =>
      obtain ⟨k1, v1⟩ := hd
      by_cases h1 : k1 = k
      · simp [pyContains, h1]
      · simp [pyGet?, h1] at h
        simp [pyContains, h1, ih h]

theorem ne_nil_of_pyGet? (d : Dict) (k : String) (v : Value)
    (h : pyGet? d k = some v) : d ≠ [] := by
  intro hd
  subst hd
  simp [pyGet?] at h

theorem truthy_model_of_pyGet? (parameters : Dict) (m : List (String × Value))
    (hm : pyGet? parameters "model" = some (.vDict m)) (hne : m ≠ []) :
    (pyGet parameters "model").truthy = true := by
  cases m with
  | nil => exact absurd rfl hne
  | cons hd tl => simp [pyGet, hm, Value.truthy]

/-! ### Claim theorems -/

/-- C2: whenever `parameters.get('model')` is absent or falsy, each of
`fit`, `predict`, `initialize`, `drop` and `get_info` raises
`ParameterNotFoundException`, for every choice of the external collaborators
(so the underlying handler body is never consulted). -/
theorem c2_model_required (parameters : Dict)
    (h : (pyGet parameters "model").truthy = false) :
    (∀ filterT mk reg, fit filterT mk parameters reg =
        (.error (.parameterNotFound "Parameter \"model\" is not found in request parameters"), reg))
    ∧ (∀ mk, predict mk parameters =
        .error (.parameterNotFound "Parameter \"model\" is not found in request parameters"))
    ∧ (∀ mk, initialize_op mk parameters =
        .error (.parameterNotFound "Parameter \"model\" is not found in request parameters"))
    ∧ (∀ mk, drop mk parameters =
        .error (.parameterNotFound "Parameter \"model\" is not found in request parameters"))
    ∧ (∀ mk, get_info mk parameters =
        .error (.parameterNotFound "Parameter \"model\" is not found in request parameters")) := by
  refine ⟨fun filterT mk reg => ?_, fun mk => ?_, fun mk => ?_, fun mk => ?_, fun mk => ?_⟩ <;>
    simp [fit, predict, initialize_op, drop, get_info, _check_input_parameters, h]

/-- Witness for C2 at the empty parameters dict. -/
theorem c2_witness :
    (pyGet ([] : Dict) "model").truthy = false
    ∧ fit (fun v => v) (fun _ => trivial_model) [] ⟨[], 0⟩ =
        (.error (.parameterNotFound "Parameter \"model\" is not found in request parameters"), ⟨[], 0⟩)
    ∧ predict (fun _ => trivial_model) [] =
        .error (.parameterNotFound "Parameter \"model\" is not found in request parameters") :=
  ⟨rfl, (c2_model_required [] rfl).1 _ _ _, (c2_model_required [] rfl).2.1 _⟩

/-- C9: with a truthy `model` but no `inputs` key, `predict` raises
`ParameterNotFoundException` for every model constructor, i.e., before any
model object is built or consulted. -/
theorem c9_predict_requires_inputs (parameters : Dict)
    (h1 : (pyGet parameters "model").truthy = true)
    (h2 : pyContains parameters "inputs" = false) :
    ∀ mk, predict mk parameters =
      .error (.parameterNotFound "Parameter \"inputs\" is not in request parameters") := by
  intro mk
  simp [predict, _check_input_parameters, h1, h2]

/-- Witness for C9 at a one-entry parameters dict. -/
theorem c9_witness :
    (pyGet [("model", Value.vStr "m")] "model").truthy = true
    ∧ pyContains [("model", Value.vStr "m")] "inputs" = false
    ∧ predict (fun _ => trivial_model) [("model", Value.vStr "m")] =
        .error (.parameterNotFound "Parameter \"inputs\" is not in request parameters") :=
  ⟨rfl, rfl, c9_predict_requires_inputs [("model", Value.vStr "m")] rfl rfl _⟩

/-- C8: the action registered under `get_version` yields the same value for
any two parameter dicts — its result does not depend on the request. -/
theorem c8_get_version_ignores_parameters (test_fn ping_fn : Dict → Value)
    (get_version : Unit → String) (p1 p2 : Dict) :
    ∃ f, lookup_action (general_get_actions test_fn ping_fn get_version) "get_version" = some f
      ∧ f p1 = f p2 := by
  refine ⟨_get_version get_version, ?_, rfl⟩
  simp [general_get_actions, lookup_action]

/-- C3: the action registered under `jobs_get_info` returns exactly the job
controller's `get_jobs_info` applied to the same parameters. -/
theorem c3_jobs_get_info_delegates {α : Type} (get_jobs_info del_job : Dict → α)
    (parameters : Dict) :
    ∃ f, lookup_action (jobs_get_actions get_jobs_info del_job) "jobs_get_info" = some f
      ∧ f parameters = get_jobs_info parameters := by
  refine ⟨fun p => get_jobs_info p, ?_, rfl⟩
  simp [jobs_get_actions, lookup_action]

/-- C4: the action registered under `jobs_delete` returns exactly the job
controller's `delete_background_job` applied to the same parameters, and the
spec-modelled `delete_background_job` turns a missing job id into a reported
`NotFoundError` rather than an unhandled failure. -/
theorem c4_jobs_delete_delegates_and_reports {α : Type}
    (get_jobs_info del_job : Dict → α) :
    (∃ f, lookup_action (jobs_get_actions get_jobs_info del_job) "jobs_delete" = some f
        ∧ ∀ parameters, f parameters = del_job parameters)
    ∧ (∀ reg jid, reg.records.any (fun r => r.id = jid) = false →
        delete_background_job reg jid = (.reported "NotFoundError", reg)) := by
  constructor
  · refine ⟨fun p => del_job p, ?_, fun parameters => rfl⟩
    simp [jobs_get_actions, lookup_action]
  · intro reg jid h
    simp [delete_background_job, registry_delete, h]

/-- Witness for C4: deleting job 5 from the empty registry reports the
error. -/
theorem c4_witness :
    delete_background_job ⟨[], 0⟩ 5 = (.reported "NotFoundError", ⟨[], 0⟩) :=
  (c4_jobs_delete_delegates_and_reports (fun _ => (0 : Nat)) (fun _ => 0)).2 ⟨[], 0⟩ 5 rfl

/-- The parameter transform succeeds whenever the model entry is a dict
holding a dict `fitting_parameters`, and the result replaces the fitting
parameters by a dict that carries the top-level `job_id` when one is
present. -/
theorem transform_parameters_shape (filterT : Value → Value)
    (parameters model fp : Dict)
    (hm : pyGet? parameters "model" = some (.vDict model))
    (hfp : pyGet? model "fitting_parameters" = some (.vDict fp)) :
    ∃ fp2, transform_parameters filterT parameters =
        .ok (pySet parameters "model"
          (.vDict (pySet model "fitting_parameters" (.vDict fp2))))
      ∧ (pyContains parameters "job_id" = true →
          pyGet? fp2 "job_id" = some (pyGet parameters "job_id")) := by
  have hc : pyContains model "fitting_parameters" = true :=
    pyContains_of_pyGet? _ _ _ hfp
  refine ⟨if pyContains parameters "job_id"
      then pySet (if pyContains fp "filter"
          then pySet fp "filter" (filterT (pyGet fp "filter")) else fp)
        "job_id" (pyGet parameters "job_id")
      else (if pyContains fp "filter"
          then pySet fp "filter" (filterT (pyGet fp "filter")) else fp), ?_, ?_⟩
  · simp [transform_parameters, hm, hc, hfp]
  · intro hj
    simp [hj, pyGet?_pySet_self]

/-- C1: when the request has a `job_id` and its model entry is a dict with a
dict `fitting_parameters`, `fit` hands the (transformed) parameters to the
wrapped handler, and in those parameters
`parameters['model']['fitting_parameters']['job_id']` equals the top-level
`parameters['job_id']`. -/
theorem c1_job_id_propagated (filterT : Value → Value)
    (parameters model fp : Dict)
    (hm : pyGet? parameters "model" = some (.vDict model))
    (hfp : pyGet? model "fitting_parameters" = some (.vDict fp))
    (hjob : pyContains parameters "job_id" = true) :
    ∃ transformed,
      transform_parameters filterT parameters = .ok transformed
      ∧ (∀ mk reg, fit filterT mk parameters reg =
           execute_in_background (fit_body mk) transformed reg)
      ∧ nested_job_id transformed = some (pyGet parameters "job_id") := by
  have htr : (pyGet parameters "model").truthy = true :=
    truthy_model_of_pyGet? _ _ hm (ne_nil_of_pyGet? _ _ _ hfp)
  obtain ⟨fp2, heq, hjid⟩ := transform_parameters_shape filterT parameters model fp hm hfp
  refine ⟨_, heq, fun mk reg => ?_, ?_⟩
  · simp [fit, htr, heq]
  · simp [nested_job_id, pyGet?_pySet_self, hjid hjob]

/-- Witness for C1 at a concrete fit request carrying `job_id = 7`. -/
theorem c1_witness :
    ∃ transformed,
      transform_parameters (fun v => v)
          [("job_id", Value.vInt 7),
           ("model", Value.vDict [("fitting_parameters", Value.vDict [])])] = .ok transformed
      ∧ (∀ mk reg, fit (fun v => v) mk
            [("job_id", Value.vInt 7),
             ("model", Value.vDict [("fitting_parameters", Value.vDict [])])] reg =
           execute_in_background (fit_body mk) transformed reg)
      ∧ nested_job_id transformed =
          some (pyGet [("job_id", Value.vInt 7),
            ("model", Value.vDict [("fitting_parameters", Value.vDict [])])] "job_id") :=
  c1_job_id_propagated (fun v => v)
    [("job_id", Value.vInt 7),
     ("model", Value.vDict [("fitting_parameters", Value.vDict [])])]
    [("fitting_parameters", Value.vDict [])] [] rfl rfl rfl

/-- C10: when the (truthy) model parameters lack a truthy `id`, every
operation that resolves a model — `fit` (run synchronously, with well-shaped
fitting parameters), `predict` (with `inputs` supplied), `initialize` (with a
truthy `db`), `drop` (with a truthy `db`), `get_info` and `drop_fitting` —
raises `ModelException`, for every model constructor `mk` (so no model object
is created). -/
theorem c10_missing_id_raises (parameters : Dict) (m : List (String × Value))
    (hm : pyGet? parameters "model" = some (.vDict m))
    (hne : m ≠ [])
    (hid : (pyGet m "id").truthy = false) :
    (∀ fp filterT mk reg,
        pyGet? m "fitting_parameters" = some (.vDict fp) →
        pyContains parameters "background_job" = false →
        fit filterT mk parameters reg =
          (.error (.modelException "Parameter \"id\" is not found in model parameters"), reg))
    ∧ (∀ mk, pyContains parameters "inputs" = true →
        predict mk parameters =
          .error (.modelException "Parameter \"id\" is not found in model parameters"))
    ∧ (∀ mk, (pyGet parameters "db").truthy = true →
        initialize_op mk parameters =
          .error (.modelException "Parameter \"id\" is not found in model parameters"))
    ∧ (∀ mk, (pyGet parameters "db").truthy = true →
        drop mk parameters =
          .error (.modelException "Parameter \"id\" is not found in model parameters"))
    ∧ (∀ mk, get_info mk parameters =
        .error (.modelException "Parameter \"id\" is not found in model parameters"))
    ∧ (∀ mk, drop_fitting mk parameters =
        .error (.modelException "Parameter \"id\" is not found in model parameters")) := by
  have htr : (pyGet parameters "model").truthy = true :=
    truthy_model_of_pyGet? _ _ hm hne
  refine ⟨?_, ?_, ?_, ?_, ?_, ?_⟩
  · intro fp filterT mk reg hfp hbg
    obtain ⟨fp2, heq, _⟩ := transform_parameters_shape filterT parameters m fp hm hfp
    have hbg2 : pyContains (pySet parameters "model"
        (.vDict (pySet m "fitting_parameters" (.vDict fp2)))) "background_job" = false := by
      rw [pyContains_pySet_ne _ _ _ _ (by decide)]
      exact hbg
    have hid2 : (pyGet (pySet m "fitting_parameters" (.vDict fp2)) "id").truthy = false := by
      rw [pyGet, pyGet?_pySet_ne _ _ _ _ (by decide)]
      exact hid
    simp [fit, htr, heq, execute_in_background, hbg2, fit_body,
      pyGet?_pySet_self, _get_model, hid2, Except.bind]
  · intro mk hinp
    simp [predict, _check_input_parameters, htr, hinp, hm, _get_model, hid, Except.bind]
  · intro mk hdb
    simp [initialize_op, _check_input_parameters, htr, hdb, hm, _get_model, hid, Except.bind]
  · intro mk hdb
    simp [drop, _check_input_parameters, htr, hdb, hm, _get_model, hid, Except.bind]
  · intro mk
    simp [get_info, _check_input_parameters, htr, hm, _get_model, hid, Except.bind]
  · intro mk
    simp [drop_fitting, hm, _get_model, hid, Except.bind]

/-- Witness for C10 at a concrete request whose model dict has a name but no
`id`. -/
theorem c10_witness :
    fit (fun v => v) (fun _ => trivial_model)
        [("model", Value.vDict [("name", Value.vStr "m"),
            ("fitting_parameters", Value.vDict [])]),
         ("inputs", Value.vNone), ("db", Value.vStr "d")] ⟨[], 0⟩ =
      (.error (.modelException "Parameter \"id\" is not found in model parameters"), ⟨[], 0⟩)
    ∧ predict (fun _ => trivial_model)
        [("model", Value.vDict [("name", Value.vStr "m"),
            ("fitting_parameters", Value.vDict [])]),
         ("inputs", Value.vNone), ("db", Value.vStr "d")] =
      .error (.modelException "Parameter \"id\" is not found in model parameters")
    ∧ drop_fitting (fun _ => trivial_model)
        [("model", Value.vDict [("name", Value.vStr "m"),
            ("fitting_parameters", Value.vDict [])]),
         ("inputs", Value.vNone), ("db", Value.vStr "d")] =
      .error (.modelException "Parameter \"id\" is not found in model parameters") :=
  ⟨(c10_missing_id_raises
      [("model", Value.vDict [("name", Value.vStr "m"),
          ("fitting_parameters", Value.vDict [])]),
       ("inputs", Value.vNone), ("db", Value.vStr "d")]
      [("name", Value.vStr "m"), ("fitting_parameters", Value.vDict [])]
      rfl (List.cons_ne_nil _ _) rfl).1 [] (fun v => v) _ _ rfl rfl,
   (c10_missing_id_raises
      [("model", Value.vDict [("name", Value.vStr "m"),
          ("fitting_parameters", Value.vDict [])]),
       ("inputs", Value.vNone), ("db", Value.vStr "d")]
      [("name", Value.vStr "m"), ("fitting_parameters", Value.vDict [])]
      rfl (List.cons_ne_nil _ _) rfl).2.1 _ rfl,
   (c10_missing_id_raises
      [("model", Value.vDict [("name", Value.vStr "m"),
          ("fitting_parameters", Value.vDict [])]),
       ("inputs", Value.vNone), ("db", Value.vStr "d")]
      [("name", Value.vStr "m"), ("fitting_parameters", Value.vDict [])]
      rfl (List.cons_ne_nil _ _) rfl).2.2.2.2.2 _⟩

/-- C5: the execution wrapper runs the handler synchronously and passes its
result through untouched (registry unchanged, so no Job Record is created)
when the background indicator is absent, and when it is present it appends
one fresh pending Job Record and immediately returns the new job
identifier. -/
theorem c5_execution_wrapper (handler : Dict → Except Exc Value)
    (parameters : Dict) (reg : JobRegistry) (hwf : regWF reg) :
    (pyContains parameters "background_job" = false →
       execute_in_background handler parameters reg = (handler parameters, reg))
    ∧ (pyContains parameters "background_job" = true →
       ∃ rec, execute_in_background handler parameters reg =
           (.ok (.vInt reg.nextId),
            { records := reg.records ++ [rec], nextId := reg.nextId + 1 })
         ∧ rec.id = reg.nextId ∧ rec.status = .pending
         ∧ rec.id ∉ reg.records.map JobRecord.id) := by
  constructor
  · intro h
    simp [execute_in_background, h]
  · intro h
    refine ⟨⟨reg.nextId, .pending, none, none, none, none, parameters⟩, ?_, rfl, rfl, ?_⟩
    · simp [execute_in_background, h, job_launch]
    · intro hmem
      obtain ⟨r, hr, hrid⟩ := List.mem_map.mp hmem
      exact absurd hrid (Nat.ne_of_lt (hwf.1 r hr))

/-- Witness for C5: both branches at concrete inputs over the empty
registry. -/
theorem c5_witness :
    (execute_in_background (fun _ => .ok (.vInt 3)) [] ⟨[], 0⟩ =
       (.ok (.vInt 3), ⟨[], 0⟩))
    ∧ ∃ rec, execute_in_background (fun _ => .ok (.vInt 3))
          [("background_job", Value.vBool true)] ⟨[], 0⟩ =
        (.ok (.vInt 0), { records := [] ++ [rec], nextId := 0 + 1 })
      ∧ rec.id = 0 ∧ rec.status = .pending
      ∧ rec.id ∉ ([] : List JobRecord).map JobRecord.id :=
  ⟨(c5_execution_wrapper (fun _ => .ok (.vInt 3)) [] ⟨[], 0⟩
      ⟨fun r hr => absurd hr (List.not_mem_nil r), List.nodup_nil⟩).1 rfl,
   (c5_execution_wrapper (fun _ => .ok (.vInt 3))
      [("background_job", Value.vBool true)] ⟨[], 0⟩
      ⟨fun r hr => absurd hr (List.not_mem_nil r), List.nodup_nil⟩).2 rfl⟩

theorem finish_record_id (outcome : Except Exc Value) (wid t0 t1 : Nat)
    (r : JobRecord) : (finish_record outcome wid t0 t1 r).id = r.id := by
  cases outcome <;> rfl

theorem filter_map_update_lower (l : List JobRecord) (n : Nat)
    (f : JobRecord → JobRecord) (h : ∀ r ∈ l, r.id < n) :
    (l.map (fun r => if r.id = n then f r else r)).filter
      (fun rr => rr.id == n) = [] := by
  induction l with
  | nil => simp
  | cons hd tl ih =>
      have hne : hd.id ≠ n := Nat.ne_of_lt (h hd (List.mem_cons_self _ _))
      simp only [List.map_cons, List.filter_cons, if_neg hne]
      rw [if_neg (by simpa using hne)]
      exact ih fun r hr => h r (List.mem_cons_of_mem _ hr)

/-- C6: when the wrapped callable of a background job raises, the launching
caller still receives exactly the job identifier (the failure never travels
back through that call path), and the job's record — the unique record a
query by that id returns — ends with status `failed` and the failure
description in `error_info`. -/
theorem c6_failure_recorded_not_reraised (handler : Dict → Except Exc Value)
    (parameters : Dict) (wid t0 t1 : Nat) (reg : JobRegistry) (e : Exc)
    (hfail : handler parameters = .error e) (hwf : regWF reg) :
    (background_run handler parameters wid t0 t1 reg).1 = reg.nextId
    ∧ ∃ r, ((background_run handler parameters wid t0 t1 reg).2.records.filter
          (fun rr => rr.id == reg.nextId)) = [r]
        ∧ r.status = .failed ∧ r.error_info = some (exc_message e) := by
  refine ⟨rfl, ⟨⟨reg.nextId, .failed, some t0, some t1, some wid,
      some (exc_message e), parameters⟩, ?_, rfl, rfl⟩⟩
  simp only [background_run, job_launch, worker_run, List.map_append,
    List.filter_append]
  rw [filter_map_update_lower reg.records reg.nextId _ hwf.1]
  simp [hfail, finish_record]

/-- Witness for C6: a handler that raises, run over the empty registry. -/
theorem c6_witness :
    (background_run (fun _ => .error .typeError) [] 1 2 3 ⟨[], 0⟩).1 = 0
    ∧ ∃ r, ((background_run (fun _ => .error .typeError) [] 1 2 3 ⟨[], 0⟩).2.records.filter
          (fun rr => rr.id == 0)) = [r]
        ∧ r.status = .failed ∧ r.error_info = some (exc_message .typeError) :=
  c6_failure_recorded_not_reraised (fun _ => .error .typeError) [] 1 2 3 ⟨[], 0⟩
    .typeError rfl ⟨fun r hr => absurd hr (List.not_mem_nil r), List.nodup_nil⟩

theorem filter_lower_eq_nil (l : List JobRecord) (n : Nat)
    (h : ∀ r ∈ l, r.id < n) : l.filter (fun rr => rr.id == n) = [] := by
  induction l with
  | nil => rfl
  | cons hd tl ih =>
      have hne : hd.id ≠ n := Nat.ne_of_lt (h hd (List.mem_cons_self _ _))
      rw [List.filter_cons, if_neg (by simpa using hne)]
      exact ih fun r hr => h r (List.mem_cons_of_mem _ hr)

theorem map_id_update (l : List JobRecord) (g : JobRecord → JobRecord)
    (hg : ∀ r, (g r).id = r.id) :
    (l.map g).map JobRecord.id = l.map JobRecord.id := by
  induction l with
  | nil => rfl
  | cons hd tl ih => simp [hg, ih]

theorem regWF_job_launch (parameters : Dict) (reg : JobRegistry)
    (hwf : regWF reg) : regWF (job_launch parameters reg).2 := by
  constructor
  · intro r hr
    simp [job_launch] at hr
    rcases hr with hr | hr
    · exact Nat.lt_succ_of_lt (hwf.1 r hr)
    · subst hr
      exact Nat.lt_succ_self _
  · simp only [job_launch, List.map_append, List.map_cons, List.map_nil]
    refine List.Nodup.append hwf.2 (List.nodup_singleton _) ?_
    intro a ha hb
    obtain ⟨r, hr, rfl⟩ := List.mem_map.mp ha
    simp at hb
    exact absurd hb (Nat.ne_of_lt (hwf.1 r hr))

theorem regWF_worker_run (handler : Dict → Except Exc Value) (parameters : Dict)
    (jid wid t0 t1 : Nat) (reg : JobRegistry) (hwf : regWF reg) :
    regWF (worker_run handler parameters jid wid t0 t1 reg) := by
  have hg : ∀ r : JobRecord,
      ((fun r => if r.id = jid then
          finish_record (handler parameters) wid t0 t1 r else r) r).id = r.id := by
    intro r
    by_cases h : r.id = jid
    · simp [h, finish_record_id]
    · simp [h]
  constructor
  · intro r hr
    simp only [worker_run] at hr
    obtain ⟨r0, hr0, rfl⟩ := List.mem_map.mp hr
    rw [hg r0]
    exact hwf.1 r0 hr0
  · simp only [worker_run]
    rw [map_id_update _ _ hg]
    exact hwf.2

theorem regWF_registry_delete (reg : JobRegistry) (jid : Nat)
    (hwf : regWF reg) (reg1 : JobRegistry)
    (h : registry_delete reg jid = .ok reg1) : regWF reg1 := by
  unfold registry_delete at h
  by_cases hc : reg.records.any (fun r => r.id = jid) = true
  · rw [if_pos hc] at h
    cases h
    constructor
    · intro r hr
      exact hwf.1 r (List.mem_of_mem_filter hr)
    · exact List.Nodup.sublist (List.Sublist.map _ (List.filter_sublist _)) hwf.2
  · rw [if_neg hc] at h
    cases h

theorem regWF_apply_op (reg : JobRegistry) (op : JobOp) (hwf : regWF reg) :
    regWF (apply_op reg op) := by
  cases op with
  | launchOp p => exact regWF_job_launch p reg hwf
  | finishOp jid outcome wid t0 t1 =>
      exact regWF_worker_run (fun _ => outcome) [] jid wid t0 t1 reg hwf
  | deleteOp jid =>
      cases hdel : registry_delete reg jid with
      | ok reg1 =>
          have he : apply_op reg (.deleteOp jid) = reg1 := by
            simp [apply_op, hdel]
          rw [he]
          exact regWF_registry_delete reg jid hwf reg1 hdel
      | error err =>
          have he : apply_op reg (.deleteOp jid) = reg := by
            simp [apply_op, hdel]
          rw [he]
          exact hwf

theorem apply_op_nextId_le (reg : JobRegistry) (op : JobOp) :
    reg.nextId ≤ (apply_op reg op).nextId := by
  cases op with
  | launchOp p => exact Nat.le_succ _
  | finishOp jid outcome wid t0 t1 => exact Nat.le_refl _
  | deleteOp jid =>
      cases hdel : registry_delete reg jid with
      | ok reg1 =>
          have he : apply_op reg (.deleteOp jid) = reg1 := by
            simp [apply_op, hdel]
          rw [he]
          unfold registry_delete at hdel
          by_cases hc : (reg.records.any fun r => decide (r.id = jid)) = true
          · rw [if_pos hc] at hdel
            cases hdel
            exact Nat.le_refl _
          · rw [if_neg hc] at hdel
            cases hdel
      | error err =>
          have he : apply_op reg (.deleteOp jid) = reg := by
            simp [apply_op, hdel]
          rw [he]

theorem run_ops_launch (p : Dict) (rest : List JobOp) (reg : JobRegistry) :
    run_ops (.launchOp p :: rest) reg =
      ((run_ops rest (job_launch p reg).2).1,
       (job_launch p reg).1 :: (run_ops rest (job_launch p reg).2).2) := rfl

theorem run_ops_finish (jid : Nat) (outcome : Except Exc Value) (wid t0 t1 : Nat)
    (rest : List JobOp) (reg : JobRegistry) :
    run_ops (.finishOp jid outcome wid t0 t1 :: rest) reg =
      run_ops rest (apply_op reg (.finishOp jid outcome wid t0 t1)) := rfl

theorem run_ops_delete (jid : Nat) (rest : List JobOp) (reg : JobRegistry) :
    run_ops (.deleteOp jid :: rest) reg =
      run_ops rest (apply_op reg (.deleteOp jid)) := rfl

theorem run_ops_ids_lb (ops : List JobOp) (reg : JobRegistry) :
    ∀ j ∈ (run_ops ops reg).2, reg.nextId ≤ j := by
  induction ops generalizing reg with
  | nil => intro j hj; simp [run_ops] at hj
  | cons op rest ih =>
      cases op with
      | launchOp p =>
          intro j hj
          rw [run_ops_launch] at hj
          simp only [List.mem_cons] at hj
          rcases hj with rfl | hj
          · exact Nat.le_refl _
          · exact Nat.le_trans (Nat.le_succ _) (ih (job_launch p reg).2 j hj)
      | finishOp jid outcome wid t0 t1 =>
          intro j hj
          rw [run_ops_finish] at hj
          exact Nat.le_trans (apply_op_nextId_le reg _) (ih _ j hj)
      | deleteOp jid =>
          intro j hj
          rw [run_ops_delete] at hj
          exact Nat.le_trans (apply_op_nextId_le reg _) (ih _ j hj)

theorem run_ops_ids_nodup (ops : List JobOp) (reg : JobRegistry) :
    (run_ops ops reg).2.Nodup := by
  induction ops generalizing reg with
  | nil => simp [run_ops]
  | cons op rest ih =>
      cases op with
      | launchOp p =>
          rw [run_ops_launch]
          refine List.nodup_cons.mpr ⟨?_, ih _⟩
          intro hmem
          have hlb := run_ops_ids_lb rest (job_launch p reg).2 _ hmem
          simp [job_launch] at hlb
      | finishOp jid outcome wid t0 t1 =>
          rw [run_ops_finish]
          exact ih _
      | deleteOp jid =>
          rw [run_ops_delete]
          exact ih _

theorem regWF_run_ops (ops : List JobOp) (reg : JobRegistry) (hwf : regWF reg) :
    regWF (run_ops ops reg).1 := by
  induction ops generalizing reg with
  | nil => exact hwf
  | cons op rest ih =>
      cases op with
      | launchOp p =>
          rw [run_ops_launch]
          exact ih _ (regWF_apply_op reg (.launchOp p) hwf)
      | finishOp jid outcome wid t0 t1 =>
          rw [run_ops_finish]
          exact ih _ (regWF_apply_op reg (.finishOp jid outcome wid t0 t1) hwf)
      | deleteOp jid =>
          rw [run_ops_delete]
          exact ih _ (regWF_apply_op reg (.deleteOp jid) hwf)

/-- C7: over any serialized sequence of registry operations (per the spec the
registry guards its counter and serialises mutations, so any concurrent
execution is some such sequence) starting from a well-formed registry, the
job ids allocated by the launches are pairwise distinct, the final registry
never holds two records with one id, every allocated id is fresh (at or above
the starting counter, hence never an id used before the sequence), and each
launch leaves exactly one record carrying the new job's id. -/
theorem c7_job_ids_unique (ops : List JobOp) (reg : JobRegistry)
    (hwf : regWF reg) :
    (run_ops ops reg).2.Nodup
    ∧ ((run_ops ops reg).1.records.map JobRecord.id).Nodup
    ∧ (∀ j ∈ (run_ops ops reg).2, reg.nextId ≤ j)
    ∧ (∀ parameters reg1, regWF reg1 →
        ((job_launch parameters reg1).2.records.filter
            (fun r => r.id == (job_launch parameters reg1).1)).length = 1) := by
  refine ⟨run_ops_ids_nodup ops reg, (regWF_run_ops ops reg hwf).2,
    run_ops_ids_lb ops reg, ?_⟩
  intro parameters reg1 hwf1
  simp only [job_launch, List.filter_append]
  rw [filter_lower_eq_nil reg1.records reg1.nextId hwf1.1]
  simp

/-- Witness for C7: launch, delete the job, launch again over the empty
registry — the two allocated ids stay distinct. -/
theorem c7_witness :
    (run_ops [.launchOp [], .deleteOp 0, .launchOp []] ⟨[], 0⟩).2.Nodup
    ∧ ((run_ops [.launchOp [], .deleteOp 0, .launchOp []] ⟨[], 0⟩).1.records.map
        JobRecord.id).Nodup
    ∧ (∀ j ∈ (run_ops [.launchOp [], .deleteOp 0, .launchOp []] ⟨[], 0⟩).2,
        (0 : Nat) ≤ j)
    ∧ (∀ parameters reg1, regWF reg1 →
        ((job_launch parameters reg1).2.records.filter
            (fun r => r.id == (job_launch parameters reg1).1)).length = 1) :=
  c7_job_ids_unique [.launchOp [], .deleteOp 0, .launchOp []] ⟨[], 0⟩
    ⟨fun r hr => absurd hr (List.not_mem_nil r), List.nodup_nil⟩

end VMSpec
